import Mathlib

/-!
Shallow embedding of the event dispatch and decision engine of AutoSpotting
(`core/main.go`): configuration defaulting (`addDefaultFilteringMode`,
`addDefaultFilter`), the periodic-scan driver (`ProcessCronEvent`,
`getRegions`, `processRegions`), the event classifier/dispatcher
(`EventHandler`) and the per-instance decision path
(`handleNewInstanceLaunch`).

External collaborators (AWS SDK calls, JSON unmarshalling, the eligibility
predicates and the action executors defined in other files of the repository)
are modelled as oracle fields of an `Env` record: the embedded functions are
the exact control flow of `main.go` over those oracles.  Logging is not
modelled (it has no bearing on control flow or results).
-/

namespace AutoSpotting

/-- Go's `unicode.IsSpace` on a character: the Unicode `White_Space`
property, as used by `strings.TrimSpace`. -/
def goIsSpace (c : Char) : Bool :=
  [0x9, 0xA, 0xB, 0xC, 0xD, 0x20, 0x85, 0xA0, 0x1680,
   0x2000, 0x2001, 0x2002, 0x2003, 0x2004, 0x2005, 0x2006, 0x2007,
   0x2008, 0x2009, 0x200A, 0x2028, 0x2029, 0x202F, 0x205F, 0x3000].contains c.toNat

/-- `len(strings.TrimSpace(s)) == 0` in Go: trimming removes leading and
trailing white space, so the result is empty exactly when every character of
`s` is white space. -/
def trimSpaceIsEmpty (s : String) : Bool :=
  s.toList.all goIsSpace

/-- The fields of `Config` consumed by the embedded control flow:
`TagFilteringMode`, `FilterByTags` and `TerminationNotificationAction`. -/
structure Config where
  tagFilteringMode : String
  filterByTags : String
  terminationNotificationAction : String
deriving Repr, DecidableEq

/-- `func (cfg *Config) addDefaultFilteringMode()` of `core/main.go`:
any mode other than the literal `"opt-out"` is coerced to `"opt-in"`. -/
def addDefaultFilteringMode (cfg : Config) : Config :=
  if cfg.tagFilteringMode ≠ "opt-out" then
    { cfg with tagFilteringMode := "opt-in" }
  else
    cfg

/-- `func (cfg *Config) addDefaultFilter()` of `core/main.go`: when the
configured filter expression is blank, default it by filtering mode
(the Go `switch` has the single case `"opt-out"` and a default). -/
def addDefaultFilter (cfg : Config) : Config :=
  if trimSpaceIsEmpty cfg.filterByTags then
    if cfg.tagFilteringMode = "opt-out" then
      { cfg with filterByTags := "spot-enabled=false" }
    else
      { cfg with filterByTags := "spot-enabled=true" }
  else
    cfg

/-- One record of an `events.SNSEvent`; the handler only reads
`record.SNS.Message`, a string holding the embedded payload. -/
structure SNSRecord where
  message : String
deriving Repr, DecidableEq

/-- `events.SNSEvent` as consumed by the handler: only its `Records` slice
is read.  `none` models a `nil` Go slice, `some l` a present slice
(possibly empty, which Go distinguishes from `nil`). -/
structure SNSEvent where
  records : Option (List SNSRecord)
deriving Repr, DecidableEq

/-- `events.CloudWatchEvent` as consumed by the handler: the `DetailType`
discriminator, the `Region`, and an opaque detail payload that only the
extractor functions look at. -/
structure CloudWatchEvent where
  detailType : String
  region : String
  detail : String
deriving Repr, DecidableEq

/-- The eligibility predicates of one scanned instance, consumed as opaque
booleans (they are side-effect-free methods defined outside `main.go`). -/
structure InstanceInfo where
  belongsToEnabledASG : Bool
  shouldBeReplacedWithSpot : Bool
  isUnattachedSpotInstanceLaunchedForAnEnabledASG : Bool
deriving Repr, DecidableEq

/-- The external collaborators of `main.go`, as oracles.
`unmarshalSNS`/`unmarshalCW` are `json.Unmarshal` into the two event
shapes; `describeRegions` is the `DescribeRegions` API response (each listed
region is a possibly-nil pointer holding a possibly-nil `RegionName`);
`regionEnabled` is `region.enabled()`; `scanInstance`, `getInstance`,
`launchSpotReplacement` and `swapWithGroupMember` are keyed by region name
and instance id.  `getInstanceIDDueForTermination` and `parseEventData` are
repository functions defined outside `main.go`; modelled from the spec:
they extract the terminating instance id (resp. the instance id and new
state) from a structured event, or fail. -/
structure Env where
  config : Config
  describeRegions : Except String (List (Option (Option String)))
  regionEnabled : String → Bool
  scanInstance : String → String → Except String Unit
  getInstance : String → String → Option InstanceInfo
  launchSpotReplacement : String → String → Except String Unit
  swapWithGroupMember : String → String → Except String Unit
  unmarshalSNS : String → Except String SNSEvent
  unmarshalCW : String → Except String CloudWatchEvent
  getInstanceIDDueForTermination : CloudWatchEvent → Except String (Option String)
  parseEventData : CloudWatchEvent → Except String (Option (String × String))

/-- `func (a *AutoSpotting) getRegions()` of `core/main.go`: on API failure
the error is returned; otherwise the non-nil region names are collected in
order. -/
def getRegions (resp : Except String (List (Option (Option String)))) :
    Except String (List String) :=
  match resp with
  | .error e => .error e
  | .ok rs =>
      .ok (rs.foldl
        (fun out r =>
          match r with
          | some (some name) => out ++ [name]
          | _ => out) [])

/-- `func (a *AutoSpotting) processRegions(regions []string)` of
`core/main.go`: one worker per region; each checks `r.enabled()` and, when
enabled, runs the region scan.  The observable outcome per region is whether
its scan was run. -/
def processRegions (env : Env) (regions : List String) : List (String × Bool) :=
  regions.map (fun r => (r, env.regionEnabled r))

/-- `func (a *AutoSpotting) ProcessCronEvent()` of `core/main.go`: resolve
the filtering defaults, enumerate regions, abort (processing none) when
enumeration fails, otherwise fan out over all of them.  The result is the
resolved configuration and `none` on abort or `some outcomes` on fan-out. -/
def ProcessCronEvent (env : Env) : Config × Option (List (String × Bool)) :=
  let cfg := addDefaultFilter (addDefaultFilteringMode env.config)
  match getRegions env.describeRegions with
  | .error _ => (cfg, none)
  | .ok regions => (cfg, some (processRegions env regions))

/-- The Decision Engine's action classification for one instance. -/
inductive Action where
  | noAction
  | launchSpotReplacement
  | swapWithGroupMember
deriving Repr, DecidableEq

/-- `func (a *AutoSpotting) handleNewInstanceLaunch` of `core/main.go`:
the event-scoped path for one instance.  Returns the Go `error` result
(`.error`) or the action that was carried out (`.ok`).  The connection and
group-scan setup steps (`connect`, `setupAsgFilters`,
`scanForEnabledAutoScalingGroups`, `determineInstanceTypeInformation`)
return nothing in the source and are omitted. -/
def handleNewInstanceLaunch (env : Env) (regionName instanceID state : String) :
    Except String Action :=
  if !(env.regionEnabled regionName) then
    .error ("region " ++ regionName ++ " is not enabled")
  else
    match env.scanInstance regionName instanceID with
    | .error e => .error e
    | .ok _ =>
      match env.getInstance regionName instanceID with
      | none => .error "instance missing"
      | some i =>
        let pendingStep : Except String Action :=
          if state = "pending" ∧ i.belongsToEnabledASG ∧ i.shouldBeReplacedWithSpot then
            match env.launchSpotReplacement regionName instanceID with
            | .error e => .error e
            | .ok _ => .ok .launchSpotReplacement
          else
            .ok .noAction
        match pendingStep with
        | .error e => .error e
        | .ok act =>
          if state = "running" then
            if !i.isUnattachedSpotInstanceLaunchedForAnEnabledASG then
              .ok act
            else
              match env.swapWithGroupMember regionName instanceID with
              | .error e => .error e
              | .ok _ => .ok .swapWithGroupMember
          else
            .ok act

/-- The observable outcome of one `EventHandler` invocation (the Go function
returns nothing; this records which branch ran and with what arguments). -/
inductive Effect where
  /-- `ProcessCronEvent` was invoked, with this outcome. -/
  | cron (outcome : Config × Option (List (String × Bool)))
  /-- An unmarshal error was logged and the handler returned. -/
  | stop
  /-- `snsEvent.Records[0]` was evaluated on an empty (non-nil) slice:
  Go panics with an index-out-of-range error. -/
  | indexOutOfRange
  /-- Interruption path: `executeAction` was invoked. -/
  | terminationExecuted (region instanceID action : String)
  /-- Interruption path: the extracted instance id was nil; nothing ran. -/
  | terminationNoop
  /-- Interruption path: extraction failed; logged and returned. -/
  | terminationStop
  /-- State-change path: `handleNewInstanceLaunch` was invoked (its result
  is discarded by the source). -/
  | stateChangeDispatched (region instanceID state : String)
  /-- State-change path: the extracted instance id was nil; nothing ran. -/
  | stateChangeNoop
  /-- State-change path: extraction failed; logged and returned. -/
  | stateChangeStop
deriving Repr, DecidableEq

/-- The envelope unwrap of `EventHandler` (`core/main.go` lines 193–197):
when `snsEvent.Records` is non-nil the working payload becomes
`Records[0].SNS.Message`; `none` marks the out-of-range index on an empty
non-nil slice. -/
def unwrapPayload (original : String) (sns : SNSEvent) : Option String :=
  match sns.records with
  | none => some original
  | some [] => none
  | some (r :: _) => some r.message

/-- The tail of `EventHandler` after the envelope unwrap: parse the working
payload as a CloudWatch event and dispatch on `DetailType`. -/
def handleCW (env : Env) (parseEvent : String) : Effect :=
  match env.unmarshalCW parseEvent with
  | .error _ => .stop
  | .ok cw =>
    if cw.detailType = "EC2 Spot Instance Interruption Warning" then
      match env.getInstanceIDDueForTermination cw with
      | .error _ => .terminationStop
      | .ok none => .terminationNoop
      | .ok (some instanceID) =>
          .terminationExecuted cw.region instanceID
            env.config.terminationNotificationAction
    else if cw.detailType = "EC2 Instance State-change Notification" then
      match env.parseEventData cw with
      | .error _ => .stateChangeStop
      | .ok none => .stateChangeNoop
      | .ok (some (instanceID, state)) =>
          let _ := handleNewInstanceLaunch env cw.region instanceID state
          .stateChangeDispatched cw.region instanceID state
    else
      .cron (ProcessCronEvent env)

/-- `func (a *AutoSpotting) EventHandler(event *json.RawMessage)` of
`core/main.go`: nil payload runs the cron scan; otherwise unmarshal as an
SNS event (stopping on error), unwrap one optional envelope, and dispatch. -/
def EventHandler (env : Env) (event : Option String) : Effect :=
  match event with
  | none => .cron (ProcessCronEvent env)
  | some ev =>
    match env.unmarshalSNS ev with
    | .error _ => .stop
    | .ok snsEvent =>
      match unwrapPayload ev snsEvent with
      | none => .indexOutOfRange
      | some parseEvent => handleCW env parseEvent

/-- Decidable equality for `Except` results, used to evaluate the embedded
functions at concrete inputs. -/
instance {ε α : Type} [DecidableEq ε] [DecidableEq α] : DecidableEq (Except ε α) :=
  fun a b =>
    match a, b with
    | .error x, .error y =>
        if h : x = y then .isTrue (congrArg Except.error h)
        else .isFalse (fun hc => h (Except.error.inj hc))
    | .ok x, .ok y =>
        if h : x = y then .isTrue (congrArg Except.ok h)
        else .isFalse (fun hc => h (Except.ok.inj hc))
    | .error _, .ok _ => .isFalse (fun hc => Except.noConfusion hc)
    | .ok _, .error _ => .isFalse (fun hc => Except.noConfusion hc)

/-- A concrete environment for evaluating the handler: every region enabled,
every scan succeeds, a fully eligible instance, actions succeed, both
unmarshal oracles fail on every payload (valid non-JSON input). -/
def envBase : Env where
  config := ⟨"", "", "terminate"⟩
  describeRegions := .ok [some (some "us-east-1"), none, some none]
  regionEnabled := fun _ => true
  scanInstance := fun _ _ => .ok ()
  getInstance := fun _ _ => some ⟨true, true, true⟩
  launchSpotReplacement := fun _ _ => .ok ()
  swapWithGroupMember := fun _ _ => .ok ()
  unmarshalSNS := fun _ => .error "invalid character"
  unmarshalCW := fun _ => .error "invalid character"
  getInstanceIDDueForTermination := fun _ => .ok none
  parseEventData := fun _ => .ok none

/-- `envBase` with failing region enumeration. -/
def envAbort : Env :=
  { envBase with describeRegions := .error "RequestError: send request failed" }

/-- `envBase` whose payloads parse as a bare (non-enveloped) CloudWatch
event with an unrecognized detail type. -/
def envOther : Env :=
  { envBase with
    unmarshalSNS := fun _ => .ok ⟨none⟩
    unmarshalCW := fun _ => .ok ⟨"AWS API Call via CloudTrail", "us-east-1", "{}"⟩ }

/-- `envBase` whose payloads parse as an SNS envelope (records nil) and then
fail to parse as a CloudWatch event. -/
def envCWFail : Env :=
  { envBase with unmarshalSNS := fun _ => .ok ⟨none⟩ }

/-- `envBase` whose payloads parse as a state-change notification for
instance `i-0456` entering `pending`. -/
def envStateChange : Env :=
  { envBase with
    unmarshalSNS := fun _ => .ok ⟨none⟩
    unmarshalCW := fun _ =>
      .ok ⟨"EC2 Instance State-change Notification", "us-east-1", "{}"⟩
    parseEventData := fun _ => .ok (some ("i-0456", "pending")) }

/-- `envStateChange` with every region disabled. -/
def envDisabled : Env :=
  { envStateChange with regionEnabled := fun _ => false }

/-- `envBase` whose payloads parse as an SNS envelope carrying one record
whose body parses as an unrecognized-detail-type CloudWatch event; the
second payload `"two"` parses to an envelope with two records sharing the
same first record. -/
def envEnvelope : Env :=
  { envBase with
    unmarshalSNS := fun s =>
      if s = "two" then .ok ⟨some [⟨"body"⟩, ⟨"extra"⟩]⟩ else .ok ⟨some [⟨"body"⟩]⟩
    unmarshalCW := fun _ => .ok ⟨"AWS API Call via CloudTrail", "us-east-1", "{}"⟩ }

/-- `envBase` whose payloads parse as an SNS envelope with a present but
empty record slice. -/
def envEmptyRecords : Env :=
  { envBase with unmarshalSNS := fun _ => .ok ⟨some []⟩ }

/-- `envStateChange` whose instance scan fails. -/
def envScanFail : Env :=
  { envStateChange with scanInstance := fun _ _ => .error "scan failed" }

/-- `envStateChange` in which the scanned instance is then not found. -/
def envMissing : Env :=
  { envStateChange with getInstance := fun _ _ => none }

/-- `envStateChange` whose spot-replacement launch fails. -/
def envLaunchFail : Env :=
  { envStateChange with launchSpotReplacement := fun _ _ => .error "launch failed" }

/-- `envStateChange` whose group-member swap fails. -/
def envSwapFail : Env :=
  { envStateChange with swapWithGroupMember := fun _ _ => .error "swap failed" }

end AutoSpotting

namespace AutoSpotting

/-- C7: after `addDefaultFilteringMode`, the tag-filtering mode is
`"opt-out"` exactly when the configured value was the literal `"opt-out"`,
and `"opt-in"` for every other input (including empty). -/
theorem addDefaultFilteringMode_resolves (cfg : Config) :
    (addDefaultFilteringMode cfg).tagFilteringMode =
      if cfg.tagFilteringMode = "opt-out" then "opt-out" else "opt-in" := by
  unfold addDefaultFilteringMode
  by_cases h : cfg.tagFilteringMode = "opt-out" <;> simp [h]

/-- C8: after `addDefaultFilter`, a blank (empty or all-whitespace) filter
expression becomes `"spot-enabled=false"` under mode `"opt-out"` and
`"spot-enabled=true"` under any other mode; a non-blank expression is left
unchanged. -/
theorem addDefaultFilter_resolves (cfg : Config) :
    (addDefaultFilter cfg).filterByTags =
      if trimSpaceIsEmpty cfg.filterByTags then
        if cfg.tagFilteringMode = "opt-out" then "spot-enabled=false"
        else "spot-enabled=true"
      else cfg.filterByTags := by
  unfold addDefaultFilter
  by_cases hb : trimSpaceIsEmpty cfg.filterByTags <;>
    by_cases hm : cfg.tagFilteringMode = "opt-out" <;> simp [hb, hm]

/-- C9: a nil payload is classified as a cron trigger: `EventHandler` runs
the full periodic scan, its outcome fully determined by `ProcessCronEvent`
with no event-payload parsing. -/
theorem eventHandler_nil_runs_cron (env : Env) :
    EventHandler env none = Effect.cron (ProcessCronEvent env) := rfl

/-- C4: when region enumeration fails, the periodic scan aborts having
processed no regions: no region worker outcome exists. -/
theorem processCronEvent_aborts_on_enumeration_failure (env : Env) (e : String)
    (h : env.describeRegions = .error e) :
    (ProcessCronEvent env).2 = none := by
  unfold ProcessCronEvent getRegions
  rw [h]

/-- Witness for C4 at `envAbort`. -/
theorem processCronEvent_aborts_on_enumeration_failure_witness :
    envAbort.describeRegions = .error "RequestError: send request failed" ∧
      (ProcessCronEvent envAbort).2 = none :=
  ⟨rfl, processCronEvent_aborts_on_enumeration_failure envAbort
    "RequestError: send request failed" rfl⟩

/-- C1 counterexample: on a present payload that fails the SNS unmarshal
stage, `EventHandler` stops; it does not run the periodic scan. -/
theorem eventHandler_parse_failure_cex :
    (envBase.unmarshalSNS "not json").isOk = false ∧
      EventHandler envBase (some "not json") = Effect.stop ∧
      EventHandler envBase (some "not json") ≠ Effect.cron (ProcessCronEvent envBase) := by
  refine ⟨rfl, rfl, ?_⟩
  intro h
  rw [show EventHandler envBase (some "not json") = Effect.stop from rfl] at h
  cases h

/-- C1 (amended): a present payload that fails to parse at either unwrap
stage — as a notification-bus envelope, or (after unwrapping) as the
embedded lifecycle event — makes `EventHandler` stop for that invocation;
no fallback scan runs. -/
theorem eventHandler_parse_failure_stops (env : Env) (s : String) :
    (∀ e, env.unmarshalSNS s = .error e → EventHandler env (some s) = Effect.stop) ∧
      (∀ sns body e, env.unmarshalSNS s = .ok sns → unwrapPayload s sns = some body →
        env.unmarshalCW body = .error e → EventHandler env (some s) = Effect.stop) := by
  constructor
  · intro e h
    simp only [EventHandler]
    rw [h]
  · intro sns body e h1 h2 h3
    simp only [EventHandler, h1, h2, handleCW, h3]

/-- Witness for C1's amended claim: both unwrap stages, at concrete
environments and payloads. -/
theorem eventHandler_parse_failure_stops_witness :
    EventHandler envBase (some "not json") = Effect.stop ∧
      EventHandler envCWFail (some "{}") = Effect.stop :=
  ⟨(eventHandler_parse_failure_stops envBase "not json").1 "invalid character" rfl,
   (eventHandler_parse_failure_stops envCWFail "{}").2 ⟨none⟩ "{}" "invalid character"
     rfl rfl rfl⟩

/-- C5: a payload that parses as a structured lifecycle event whose
`DetailType` is neither the spot-interruption nor the state-change type
makes `EventHandler` run the full periodic scan. -/
theorem eventHandler_unrecognized_detail_falls_back (env : Env) (s body : String)
    (sns : SNSEvent) (cw : CloudWatchEvent)
    (hsns : env.unmarshalSNS s = .ok sns)
    (hun : unwrapPayload s sns = some body)
    (hcw : env.unmarshalCW body = .ok cw)
    (h1 : cw.detailType ≠ "EC2 Spot Instance Interruption Warning")
    (h2 : cw.detailType ≠ "EC2 Instance State-change Notification") :
    EventHandler env (some s) = Effect.cron (ProcessCronEvent env) := by
  simp only [EventHandler, hsns, hun, handleCW, hcw]
  rw [if_neg h1, if_neg h2]

/-- Witness for C5 at `envOther` (detail type `"AWS API Call via
CloudTrail"`). -/
theorem eventHandler_unrecognized_detail_falls_back_witness :
    envOther.unmarshalSNS "{}" = .ok ⟨none⟩ ∧
      unwrapPayload "{}" (⟨none⟩ : SNSEvent) = some "{}" ∧
      envOther.unmarshalCW "{}" = .ok ⟨"AWS API Call via CloudTrail", "us-east-1", "{}"⟩ ∧
      EventHandler envOther (some "{}") = Effect.cron (ProcessCronEvent envOther) :=
  ⟨rfl, rfl, rfl,
   eventHandler_unrecognized_detail_falls_back envOther "{}" "{}" ⟨none⟩
     ⟨"AWS API Call via CloudTrail", "us-east-1", "{}"⟩ rfl rfl rfl
     (by decide) (by decide)⟩

/-- C6: a payload parsing as an envelope with at least one record is
replaced by the first record's message body, and records beyond the first
have no effect on the outcome. -/
theorem eventHandler_unwraps_first_record (env : Env) (p q : String)
    (r : SNSRecord) (rs₁ rs₂ : List SNSRecord)
    (h₁ : env.unmarshalSNS p = .ok ⟨some (r :: rs₁)⟩)
    (h₂ : env.unmarshalSNS q = .ok ⟨some (r :: rs₂)⟩) :
    EventHandler env (some p) = handleCW env r.message ∧
      EventHandler env (some p) = EventHandler env (some q) := by
  have e₁ : EventHandler env (some p) = handleCW env r.message := by
    simp only [EventHandler, h₁, unwrapPayload]
  have e₂ : EventHandler env (some q) = handleCW env r.message := by
    simp only [EventHandler, h₂, unwrapPayload]
  exact ⟨e₁, e₁.trans e₂.symm⟩

/-- Witness for C6 at `envEnvelope`: payloads `"one"` (a single record) and
`"two"` (the same first record plus one extra) classify identically. -/
theorem eventHandler_unwraps_first_record_witness :
    envEnvelope.unmarshalSNS "one" = .ok ⟨some [⟨"body"⟩]⟩ ∧
      envEnvelope.unmarshalSNS "two" = .ok ⟨some [⟨"body"⟩, ⟨"extra"⟩]⟩ ∧
      EventHandler envEnvelope (some "one") = handleCW envEnvelope "body" ∧
      EventHandler envEnvelope (some "one") = EventHandler envEnvelope (some "two") := by
  have h := eventHandler_unwraps_first_record envEnvelope "one" "two"
    ⟨"body"⟩ [] [⟨"extra"⟩] rfl rfl
  exact ⟨rfl, rfl, h.1, h.2⟩

/-- After the unwrap, no branch of the dispatch tail produces the
out-of-range outcome. -/
theorem handleCW_not_indexOutOfRange (env : Env) (body : String) :
    handleCW env body ≠ Effect.indexOutOfRange := by
  cases h : env.unmarshalCW body with
  | error e => simp [handleCW, h]
  | ok cw =>
    by_cases h1 : cw.detailType = "EC2 Spot Instance Interruption Warning"
    · cases ht : env.getInstanceIDDueForTermination cw with
      | error e => simp [handleCW, h, h1, ht]
      | ok o => cases o <;> simp [handleCW, h, h1, ht]
    · by_cases h2 : cw.detailType = "EC2 Instance State-change Notification"
      · cases hp : env.parseEventData cw with
        | error e => simp [handleCW, h, h1, h2, hp]
        | ok o => rcases o with _ | ⟨iid, st⟩ <;> simp [handleCW, h, h1, h2, hp]
      · simp [handleCW, h, h1, h2]

/-- C10: the envelope unwrap is guarded only on the record slice being
non-nil: a payload parsing to an envelope with a present but empty record
slice makes the handler index out of range, and that is the only way the
out-of-range outcome arises — classification is total exactly under the
precondition that any present record slice is non-empty. -/
theorem eventHandler_records_guard (env : Env) (s : String) :
    (∀ sns, env.unmarshalSNS s = .ok sns → sns.records = some [] →
      EventHandler env (some s) = Effect.indexOutOfRange) ∧
      ((∀ sns, env.unmarshalSNS s = .ok sns → sns.records ≠ some []) →
        EventHandler env (some s) ≠ Effect.indexOutOfRange) := by
  constructor
  · intro sns h hrec
    simp only [EventHandler, h, unwrapPayload, hrec]
  · intro hne
    cases h : env.unmarshalSNS s with
    | error e => simp [EventHandler, h]
    | ok sns =>
      have hr := hne sns h
      cases hrec : sns.records with
      | none =>
        simp only [EventHandler, h, unwrapPayload, hrec]
        exact handleCW_not_indexOutOfRange env s
      | some l =>
        cases l with
        | nil => exact absurd hrec hr
        | cons r0 rest =>
          simp only [EventHandler, h, unwrapPayload, hrec]
          exact handleCW_not_indexOutOfRange env r0.message

/-- Witness for C10: `envEmptyRecords` panics on any payload; `envCWFail`
(records nil) never reaches the out-of-range outcome. -/
theorem eventHandler_records_guard_witness :
    envEmptyRecords.unmarshalSNS "{}" = .ok ⟨some []⟩ ∧
      EventHandler envEmptyRecords (some "{}") = Effect.indexOutOfRange ∧
      EventHandler envCWFail (some "{}") ≠ Effect.indexOutOfRange := by
  refine ⟨rfl, (eventHandler_records_guard envEmptyRecords "{}").1 ⟨some []⟩ rfl rfl, ?_⟩
  refine (eventHandler_records_guard envCWFail "{}").2 (fun sns h => ?_)
  have h2 : Except.ok (⟨none⟩ : SNSEvent) = Except.ok sns := h
  cases Except.ok.inj h2
  decide

/-- Evaluation of the event-scoped path once its preamble (enabled region,
successful scan, instance found) is fixed: what remains is the decision
block of `handleNewInstanceLaunch`. -/
theorem handleNewInstanceLaunch_eval (env : Env) (r id st : String) (i : InstanceInfo)
    (hEn : env.regionEnabled r = true)
    (hScan : env.scanInstance r id = .ok ())
    (hGet : env.getInstance r id = some i) :
    handleNewInstanceLaunch env r id st =
      match (if st = "pending" ∧ i.belongsToEnabledASG ∧ i.shouldBeReplacedWithSpot then
          match env.launchSpotReplacement r id with
          | .error e => .error e
          | .ok _ => .ok Action.launchSpotReplacement
        else (.ok Action.noAction : Except String Action)) with
      | .error e => .error e
      | .ok act =>
        if st = "running" then
          if !i.isUnattachedSpotInstanceLaunchedForAnEnabledASG then .ok act
          else
            match env.swapWithGroupMember r id with
            | .error e => .error e
            | .ok _ => .ok Action.swapWithGroupMember
        else .ok act := by
  simp only [handleNewInstanceLaunch, hEn, hScan, hGet, Bool.not_true]
  rfl

/-- C3: the decision table of the event-scoped path, given an enabled
region, a successful scan and a found instance: `pending` with both
eligibility predicates true attempts the spot-replacement launch; `pending`
otherwise takes no action; `running` and unattached attempts the swap;
`running` and already attached takes no action and returns no error; any
other state takes no action. -/
theorem handleNewInstanceLaunch_decision (env : Env) (r id : String) (i : InstanceInfo)
    (hEn : env.regionEnabled r = true)
    (hScan : env.scanInstance r id = .ok ())
    (hGet : env.getInstance r id = some i) :
    (i.belongsToEnabledASG = true → i.shouldBeReplacedWithSpot = true →
      handleNewInstanceLaunch env r id "pending" =
        Except.map (fun _ => Action.launchSpotReplacement) (env.launchSpotReplacement r id)) ∧
      ((i.belongsToEnabledASG && i.shouldBeReplacedWithSpot) = false →
        handleNewInstanceLaunch env r id "pending" = .ok Action.noAction) ∧
      (i.isUnattachedSpotInstanceLaunchedForAnEnabledASG = true →
        handleNewInstanceLaunch env r id "running" =
          Except.map (fun _ => Action.swapWithGroupMember) (env.swapWithGroupMember r id)) ∧
      (i.isUnattachedSpotInstanceLaunchedForAnEnabledASG = false →
        handleNewInstanceLaunch env r id "running" = .ok Action.noAction) ∧
      (∀ st, st ≠ "pending" → st ≠ "running" →
        handleNewInstanceLaunch env r id st = .ok Action.noAction) := by
  refine ⟨?_, ?_, ?_, ?_, ?_⟩
  · intro hb hs
    rw [handleNewInstanceLaunch_eval env r id "pending" i hEn hScan hGet]
    cases hl : env.launchSpotReplacement r id <;> simp [hb, hs, hl, Except.map]
  · intro hfalse
    rw [handleNewInstanceLaunch_eval env r id "pending" i hEn hScan hGet]
    cases hb : i.belongsToEnabledASG with
    | false => simp [hb]
    | true =>
      cases hs : i.shouldBeReplacedWithSpot with
      | false => simp [hs]
      | true =>
        rw [hb, hs] at hfalse
        cases hfalse
  · intro hu
    rw [handleNewInstanceLaunch_eval env r id "running" i hEn hScan hGet]
    cases hw : env.swapWithGroupMember r id <;> simp [hu, hw, Except.map]
  · intro hu
    rw [handleNewInstanceLaunch_eval env r id "running" i hEn hScan hGet]
    simp [hu]
  · intro st hp hr2
    rw [handleNewInstanceLaunch_eval env r id st i hEn hScan hGet]
    simp [hp, hr2]

/-- Witness for C3 at `envBase`: fully eligible pending instance yields the
launch action. -/
theorem handleNewInstanceLaunch_decision_witness :
    envBase.regionEnabled "us-east-1" = true ∧
      envBase.scanInstance "us-east-1" "i-0456" = .ok () ∧
      envBase.getInstance "us-east-1" "i-0456" = some ⟨true, true, true⟩ ∧
      handleNewInstanceLaunch envBase "us-east-1" "i-0456" "pending" =
        .ok Action.launchSpotReplacement := by
  refine ⟨rfl, rfl, rfl, ?_⟩
  exact (handleNewInstanceLaunch_decision envBase "us-east-1" "i-0456"
    ⟨true, true, true⟩ rfl rfl rfl).1 rfl rfl

/-- C2 counterexample: with the region disabled the single-event path
returns an error, yet the observable outcome of the dispatch entry point is
identical to the run in which the action succeeded — the error never
reaches the entry point's caller. -/
theorem eventHandler_error_not_returned_cex :
    handleNewInstanceLaunch envDisabled "us-east-1" "i-0456" "pending" =
        .error "region us-east-1 is not enabled" ∧
      handleNewInstanceLaunch envStateChange "us-east-1" "i-0456" "pending" =
        .ok Action.launchSpotReplacement ∧
      EventHandler envDisabled (some "{}") = EventHandler envStateChange (some "{}") := by
  refine ⟨by decide, by decide, by decide⟩

/-- C2 (amended): every error arising on the single-event path — disabled
region, scan failure, missing instance, failed launch or failed swap — is
returned by `handleNewInstanceLaunch` to its caller; the dispatch entry
point (`EventHandler`), however, discards that result: on a state-change
event its outcome is `stateChangeDispatched`, which carries no error. -/
theorem handleNewInstanceLaunch_error_propagation (env : Env) (r id st s : String) :
    (env.regionEnabled r = false →
      handleNewInstanceLaunch env r id st = .error ("region " ++ r ++ " is not enabled")) ∧
      (∀ e, env.regionEnabled r = true → env.scanInstance r id = .error e →
        handleNewInstanceLaunch env r id st = .error e) ∧
      (env.regionEnabled r = true → env.scanInstance r id = .ok () →
        env.getInstance r id = none →
        handleNewInstanceLaunch env r id st = .error "instance missing") ∧
      (∀ i e, env.regionEnabled r = true → env.scanInstance r id = .ok () →
        env.getInstance r id = some i →
        i.belongsToEnabledASG = true → i.shouldBeReplacedWithSpot = true →
        env.launchSpotReplacement r id = .error e →
        handleNewInstanceLaunch env r id "pending" = .error e) ∧
      (∀ i e, env.regionEnabled r = true → env.scanInstance r id = .ok () →
        env.getInstance r id = some i →
        i.isUnattachedSpotInstanceLaunchedForAnEnabledASG = true →
        env.swapWithGroupMember r id = .error e →
        handleNewInstanceLaunch env r id "running" = .error e) ∧
      (∀ sns body cw iid st2, env.unmarshalSNS s = .ok sns →
        unwrapPayload s sns = some body →
        env.unmarshalCW body = .ok cw →
        cw.detailType = "EC2 Instance State-change Notification" →
        env.parseEventData cw = .ok (some (iid, st2)) →
        EventHandler env (some s) = Effect.stateChangeDispatched cw.region iid st2) := by
  refine ⟨?_, ?_, ?_, ?_, ?_, ?_⟩
  · intro h
    simp [handleNewInstanceLaunch, h]
  · intro e hEn hScan
    simp [handleNewInstanceLaunch, hEn, hScan]
  · intro hEn hScan hGet
    simp [handleNewInstanceLaunch, hEn, hScan, hGet]
  · intro i e hEn hScan hGet hb hs hl
    simp [handleNewInstanceLaunch, hEn, hScan, hGet, hb, hs, hl]
  · intro i e hEn hScan hGet hu hw
    simp [handleNewInstanceLaunch, hEn, hScan, hGet, hu, hw]
  · intro sns body cw iid st2 hsns hun hcw hdt hp
    simp [EventHandler, hsns, hun, handleCW, hcw, hdt, hp]

/-- Witness for C2's amended claim: each error class at a concrete
environment, and the entry-point outcome on the successful run. -/
theorem handleNewInstanceLaunch_error_propagation_witness :
    handleNewInstanceLaunch envDisabled "us-east-1" "i-0456" "pending" =
        .error "region us-east-1 is not enabled" ∧
      handleNewInstanceLaunch envScanFail "us-east-1" "i-0456" "pending" =
        .error "scan failed" ∧
      handleNewInstanceLaunch envMissing "us-east-1" "i-0456" "pending" =
        .error "instance missing" ∧
      handleNewInstanceLaunch envLaunchFail "us-east-1" "i-0456" "pending" =
        .error "launch failed" ∧
      handleNewInstanceLaunch envSwapFail "us-east-1" "i-0456" "running" =
        .error "swap failed" ∧
      EventHandler envStateChange (some "{}") =
        Effect.stateChangeDispatched "us-east-1" "i-0456" "pending" := by
  refine ⟨?_, ?_, ?_, ?_, ?_, ?_⟩
  · exact (handleNewInstanceLaunch_error_propagation envDisabled
      "us-east-1" "i-0456" "pending" "").1 rfl
  · exact (handleNewInstanceLaunch_error_propagation envScanFail
      "us-east-1" "i-0456" "pending" "").2.1 "scan failed" rfl rfl
  · exact (handleNewInstanceLaunch_error_propagation envMissing
      "us-east-1" "i-0456" "pending" "").2.2.1 rfl rfl rfl
  · exact (handleNewInstanceLaunch_error_propagation envLaunchFail
      "us-east-1" "i-0456" "pending" "").2.2.2.1 ⟨true, true, true⟩ "launch failed"
      rfl rfl rfl rfl rfl rfl
  · exact (handleNewInstanceLaunch_error_propagation envSwapFail
      "us-east-1" "i-0456" "running" "").2.2.2.2.1 ⟨true, true, true⟩ "swap failed"
      rfl rfl rfl rfl rfl
  · exact (handleNewInstanceLaunch_error_propagation envStateChange
      "us-east-1" "i-0456" "pending" "{}").2.2.2.2.2 ⟨none⟩ "{}"
      ⟨"EC2 Instance State-change Notification", "us-east-1", "{}"⟩ "i-0456" "pending"
      rfl rfl rfl rfl rfl

end AutoSpotting
